import Mathlib

/-!
Verification of the Saarathi-AI core against its specification.

Two components are embedded from the Python sources:
* the eligibility rule evaluator `check_eligibility`
  (backend/services/eligibility_service.py), and
* the scheme merge/upsert engine `upsert_schemes_from_source`
  (backend/ingestion/merge.py).

Machine integers of the source are modelled as `Int` (Python integers are
unbounded), optional/nullable fields as `Option`, and the evaluator's
score as a rational number (the source uses the literals 1.0 and 0.0,
which are exact).
-/

/-- Profile shape of `schemas.UserProfileCreate`: `state` and `age`
required, the remaining comparison fields optional. -/
structure UserProfileCreate where
  name : String
  state : String
  age : Int
  gender : Option String := none
  occupation : Option String := none
  annual_income : Option Int := none
  caste : Option String := none
  disability : Option String := none
  deriving DecidableEq, Repr

/-- Scheme shape as read by the evaluator (`models.Scheme` columns;
`name`, `short_description` and `state` are non-nullable, the predicate
columns nullable). -/
structure Scheme where
  name : String
  short_description : String
  full_description : Option String := none
  category : Option String := none
  state : String
  min_age : Option Int := none
  max_age : Option Int := none
  min_income : Option Int := none
  max_income : Option Int := none
  occupation : Option String := none
  gender : Option String := none
  caste : Option String := none
  disability : Option String := none
  official_link : Option String := none
  application_process : Option String := none
  deriving DecidableEq, Repr

/-- The dict returned by `check_eligibility`. -/
structure Verdict where
  eligible : Bool
  reasons : List String
  score : ℚ
  deriving DecidableEq, Repr

/-- Digit grouping of Python's `f"{n:,}"` on a block of three digits
below the leading block: pad with zeros to width 3. -/
def pad3 (n : Nat) : String :=
  if n < 10 then "00" ++ toString n
  else if n < 100 then "0" ++ toString n
  else toString n

/-- Insert thousands separators into a digit list given in reverse
order (least significant digit first). -/
def group3 : List Char → List Char
  | [] => []
  | [a] => [a]
  | [a, b] => [a, b]
  | [a, b, c] => [a, b, c]
  | a :: b :: c :: d :: rest => a :: b :: c :: ',' :: group3 (d :: rest)

/-- Python's `f"{n:,}"` for an integer: decimal digits grouped in
threes by commas, with a leading minus sign when negative. -/
def commaFmt (n : Int) : String :=
  let digits := String.mk (group3 (toString n.natAbs).toList.reverse).reverse
  if n < 0 then "-" ++ digits else digits

/-- Python's `str.lower()`: lowercase each character (the repository's
data is ASCII, where `Char.toLower` and Python agree). -/
def String.pyLower (s : String) : String :=
  String.mk (s.data.map Char.toLower)

/-- Python's `str.strip()`: drop whitespace from both ends. -/
def String.pyStrip (s : String) : String :=
  String.mk (((s.data.dropWhile Char.isWhitespace).reverse.dropWhile
    Char.isWhitespace).reverse)

/-- Python's `str.split(sep)` for a one-character separator, on the
character list. -/
def splitCharList (sep : Char) : List Char → List String
  | [] => [""]
  | c :: rest =>
    match splitCharList sep rest with
    | [] => [""]
    | h :: t => if c = sep then "" :: h :: t else String.mk (c :: h.data) :: t

/-- Python's `str.split(sep)` for a one-character separator. -/
def String.pySplit (s : String) (sep : Char) : List String :=
  splitCharList sep s.data

/-- Lines 25-27 of eligibility_service.py: jurisdiction/state check. -/
def stateStep (p : UserProfileCreate) (s : Scheme) :
    Bool × List String → Bool × List String
  | (eligible, reasons) =>
    if s.state.pyLower ≠ "central" ∧ s.state.pyLower ≠ p.state.pyLower then
      (false, reasons ++ ["This scheme is only for " ++ s.state ++ " residents."])
    else (eligible, reasons)

/-- Lines 30-32: minimum-age check. -/
def minAgeStep (p : UserProfileCreate) (s : Scheme) :
    Bool × List String → Bool × List String
  | (eligible, reasons) =>
    match s.min_age with
    | none => (eligible, reasons)
    | some m =>
      if p.age < m then
        (false, reasons ++ ["Age must be at least " ++ toString m ++ " years."])
      else (eligible, reasons)

/-- Lines 34-36: maximum-age check. -/
def maxAgeStep (p : UserProfileCreate) (s : Scheme) :
    Bool × List String → Bool × List String
  | (eligible, reasons) =>
    match s.max_age with
    | none => (eligible, reasons)
    | some m =>
      if p.age > m then
        (false, reasons ++ ["Age must not exceed " ++ toString m ++ " years."])
      else (eligible, reasons)

/-- Lines 39-45: minimum-income check. -/
def minIncomeStep (p : UserProfileCreate) (s : Scheme) :
    Bool × List String → Bool × List String
  | (eligible, reasons) =>
    match s.min_income with
    | none => (eligible, reasons)
    | some m =>
      match p.annual_income with
      | none => (false, reasons ++ ["Income information is required for this scheme."])
      | some inc =>
        if inc < m then
          (false, reasons ++ ["Annual income must be at least ₹" ++ commaFmt m ++ "."])
        else (eligible, reasons)

/-- Lines 47-53: maximum-income check. -/
def maxIncomeStep (p : UserProfileCreate) (s : Scheme) :
    Bool × List String → Bool × List String
  | (eligible, reasons) =>
    match s.max_income with
    | none => (eligible, reasons)
    | some m =>
      match p.annual_income with
      | none => (false, reasons ++ ["Income information is required for this scheme."])
      | some inc =>
        if inc > m then
          (false, reasons ++ ["Annual income must not exceed ₹" ++ commaFmt m ++ "."])
        else (eligible, reasons)

/-- Lines 56-62: occupation check. -/
def occupationStep (p : UserProfileCreate) (s : Scheme) :
    Bool × List String → Bool × List String
  | (eligible, reasons) =>
    match s.occupation with
    | none => (eligible, reasons)
    | some occ =>
      match p.occupation with
      | none =>
        (false, reasons ++
          ["This scheme requires occupation to be specified as \x27" ++ occ ++ "\x27."])
      | some pocc =>
        if occ.pyLower ≠ pocc.pyLower then
          (false, reasons ++ ["This scheme is only for " ++ occ ++ "s."])
        else (eligible, reasons)

/-- Lines 65-71: gender check ("any" is a wildcard). -/
def genderStep (p : UserProfileCreate) (s : Scheme) :
    Bool × List String → Bool × List String
  | (eligible, reasons) =>
    match s.gender with
    | none => (eligible, reasons)
    | some g =>
      if g.pyLower = "any" then (eligible, reasons)
      else
        match p.gender with
        | none => (false, reasons ++ ["This scheme requires gender to be specified."])
        | some pg =>
          if g.pyLower ≠ pg.pyLower then
            (false, reasons ++ ["This scheme is only for " ++ g ++ " applicants."])
          else (eligible, reasons)

/-- Lines 74-83: caste check ("any" wildcard; multiple accepted values
separated by "/"). -/
def casteStep (p : UserProfileCreate) (s : Scheme) :
    Bool × List String → Bool × List String
  | (eligible, reasons) =>
    match s.caste with
    | none => (eligible, reasons)
    | some c =>
      if c.pyLower = "any" then (eligible, reasons)
      else
        match p.caste with
        | none => (false, reasons ++ ["This scheme requires caste category to be specified."])
        | some pc =>
          let allowed_castes := (c.pySplit '/').map (fun t => t.pyStrip.pyLower)
          if ¬ allowed_castes.contains pc.pyLower then
            (false, reasons ++ ["This scheme is only for " ++ c ++ " category."])
          else (eligible, reasons)

/-- Lines 86-96: disability check ("any" wildcard; the mismatch reason
distinguishes requires-disability from excludes-disability). -/
def disabilityStep (p : UserProfileCreate) (s : Scheme) :
    Bool × List String → Bool × List String
  | (eligible, reasons) =>
    match s.disability with
    | none => (eligible, reasons)
    | some d =>
      if d.pyLower = "any" then (eligible, reasons)
      else
        match p.disability with
        | none => (false, reasons ++ ["This scheme requires disability status to be specified."])
        | some pd =>
          if d.pyLower ≠ pd.pyLower then
            if d.pyLower = "yes" then
              (false, reasons ++ ["This scheme is only for persons with disabilities."])
            else
              (false, reasons ++ ["This scheme is not available for persons with disabilities."])
          else (eligible, reasons)

/-- `check_eligibility` of backend/services/eligibility_service.py: the
nine predicate blocks run in source order on the accumulator
`(eligible, reasons)` started at `(True, [])`; the score is 1.0 when
eligible, else 0.0. -/
def check_eligibility (p : UserProfileCreate) (s : Scheme) : Verdict :=
  let st0 : Bool × List String := (true, [])
  let st1 := stateStep p s st0
  let st2 := minAgeStep p s st1
  let st3 := maxAgeStep p s st2
  let st4 := minIncomeStep p s st3
  let st5 := maxIncomeStep p s st4
  let st6 := occupationStep p s st5
  let st7 := genderStep p s st6
  let st8 := casteStep p s st7
  let st9 := disabilityStep p s st8
  { eligible := st9.1
    reasons := st9.2
    score := if st9.1 then 1 else 0 }

/-! ### Per-predicate pass/fail conditions and reason strings

Each of the nine blocks of `check_eligibility` either leaves the
accumulator unchanged or sets `eligible` to `false` and appends exactly
one reason.  The following definitions isolate, per predicate, whether
the block fires and which string it appends; they are read off the same
source lines as the step functions above. -/

/-- Condition of the jurisdiction block (lines 25-27). -/
def stateFails (p : UserProfileCreate) (s : Scheme) : Bool :=
  decide (s.state.pyLower ≠ "central" ∧ s.state.pyLower ≠ p.state.pyLower)

def stateReason (_p : UserProfileCreate) (s : Scheme) : String :=
  "This scheme is only for " ++ s.state ++ " residents."

/-- Condition of the minimum-age block (lines 30-32). -/
def minAgeFails (p : UserProfileCreate) (s : Scheme) : Bool :=
  match s.min_age with
  | none => false
  | some m => decide (p.age < m)

def minAgeReason (_p : UserProfileCreate) (s : Scheme) : String :=
  "Age must be at least " ++ toString (s.min_age.getD 0) ++ " years."

/-- Condition of the maximum-age block (lines 34-36). -/
def maxAgeFails (p : UserProfileCreate) (s : Scheme) : Bool :=
  match s.max_age with
  | none => false
  | some m => decide (p.age > m)

def maxAgeReason (_p : UserProfileCreate) (s : Scheme) : String :=
  "Age must not exceed " ++ toString (s.max_age.getD 0) ++ " years."

/-- Condition of the minimum-income block (lines 39-45). -/
def minIncomeFails (p : UserProfileCreate) (s : Scheme) : Bool :=
  match s.min_income with
  | none => false
  | some m =>
    match p.annual_income with
    | none => true
    | some inc => decide (inc < m)

def minIncomeReason (p : UserProfileCreate) (s : Scheme) : String :=
  match p.annual_income with
  | none => "Income information is required for this scheme."
  | some _ => "Annual income must be at least ₹" ++ commaFmt (s.min_income.getD 0) ++ "."

/-- Condition of the maximum-income block (lines 47-53). -/
def maxIncomeFails (p : UserProfileCreate) (s : Scheme) : Bool :=
  match s.max_income with
  | none => false
  | some m =>
    match p.annual_income with
    | none => true
    | some inc => decide (inc > m)

def maxIncomeReason (p : UserProfileCreate) (s : Scheme) : String :=
  match p.annual_income with
  | none => "Income information is required for this scheme."
  | some _ => "Annual income must not exceed ₹" ++ commaFmt (s.max_income.getD 0) ++ "."

/-- Condition of the occupation block (lines 56-62). -/
def occupationFails (p : UserProfileCreate) (s : Scheme) : Bool :=
  match s.occupation with
  | none => false
  | some occ =>
    match p.occupation with
    | none => true
    | some pocc => decide (occ.pyLower ≠ pocc.pyLower)

def occupationReason (p : UserProfileCreate) (s : Scheme) : String :=
  match p.occupation with
  | none =>
    "This scheme requires occupation to be specified as \x27" ++ (s.occupation.getD "") ++ "\x27."
  | some _ => "This scheme is only for " ++ (s.occupation.getD "") ++ "s."

/-- Condition of the gender block (lines 65-71). -/
def genderFails (p : UserProfileCreate) (s : Scheme) : Bool :=
  match s.gender with
  | none => false
  | some g =>
    if g.pyLower = "any" then false
    else
      match p.gender with
      | none => true
      | some pg => decide (g.pyLower ≠ pg.pyLower)

def genderReason (p : UserProfileCreate) (s : Scheme) : String :=
  match p.gender with
  | none => "This scheme requires gender to be specified."
  | some _ => "This scheme is only for " ++ (s.gender.getD "") ++ " applicants."

/-- Condition of the caste block (lines 74-83). -/
def casteFails (p : UserProfileCreate) (s : Scheme) : Bool :=
  match s.caste with
  | none => false
  | some c =>
    if c.pyLower = "any" then false
    else
      match p.caste with
      | none => true
      | some pc =>
        ¬ ((c.pySplit '/').map (fun t => t.pyStrip.pyLower)).contains pc.pyLower

def casteReason (p : UserProfileCreate) (s : Scheme) : String :=
  match p.caste with
  | none => "This scheme requires caste category to be specified."
  | some _ => "This scheme is only for " ++ (s.caste.getD "") ++ " category."

/-- Condition of the disability block (lines 86-96). -/
def disabilityFails (p : UserProfileCreate) (s : Scheme) : Bool :=
  match s.disability with
  | none => false
  | some d =>
    if d.pyLower = "any" then false
    else
      match p.disability with
      | none => true
      | some pd => decide (d.pyLower ≠ pd.pyLower)

def disabilityReason (p : UserProfileCreate) (s : Scheme) : String :=
  match p.disability with
  | none => "This scheme requires disability status to be specified."
  | some _ =>
    if (s.disability.getD "").pyLower = "yes" then
      "This scheme is only for persons with disabilities."
    else
      "This scheme is not available for persons with disabilities."

/-- Zero-or-one reason contributed by a predicate block. -/
def contribOf (fails : Bool) (reason : String) : List String :=
  if fails then [reason] else []

def stateContrib (p : UserProfileCreate) (s : Scheme) : List String :=
  contribOf (stateFails p s) (stateReason p s)

def minAgeContrib (p : UserProfileCreate) (s : Scheme) : List String :=
  contribOf (minAgeFails p s) (minAgeReason p s)

def maxAgeContrib (p : UserProfileCreate) (s : Scheme) : List String :=
  contribOf (maxAgeFails p s) (maxAgeReason p s)

def minIncomeContrib (p : UserProfileCreate) (s : Scheme) : List String :=
  contribOf (minIncomeFails p s) (minIncomeReason p s)

def maxIncomeContrib (p : UserProfileCreate) (s : Scheme) : List String :=
  contribOf (maxIncomeFails p s) (maxIncomeReason p s)

def occupationContrib (p : UserProfileCreate) (s : Scheme) : List String :=
  contribOf (occupationFails p s) (occupationReason p s)

def genderContrib (p : UserProfileCreate) (s : Scheme) : List String :=
  contribOf (genderFails p s) (genderReason p s)

def casteContrib (p : UserProfileCreate) (s : Scheme) : List String :=
  contribOf (casteFails p s) (casteReason p s)

def disabilityContrib (p : UserProfileCreate) (s : Scheme) : List String :=
  contribOf (disabilityFails p s) (disabilityReason p s)

/-! ### Merge/upsert engine (backend/ingestion/merge.py)

The SQLAlchemy session is not part of the sources (`db.py` only declares
`SessionLocal`/`Base`).  Modelled from the spec: the repository finds an
existing scheme by `(source, source_scheme_id)`, mutates it in place,
and newly created schemes become visible at the commit/flush boundary
around the whole batch, so a query during the batch sees previously
stored rows (with in-place updates) but not the batch's own pending
inserts.  `datetime.utcnow()` is modelled as an explicit `now : Nat`
parameter, one per call. -/

/-- A stored `models.Scheme` row as the merge engine sees it.  Every
column the Python object can carry is a field; nullable values are
`Option`s (the merge code itself never enforces the non-null column
constraints, so `name`/`state` are `Option` here). -/
structure SchemeRow where
  source : Option String := none
  source_scheme_id : Option String := none
  name : Option String := none
  state : Option String := none
  category : Option String := none
  short_description : Option String := none
  full_description : Option String := none
  min_age : Option Int := none
  max_age : Option Int := none
  min_income : Option Int := none
  max_income : Option Int := none
  occupation : Option String := none
  official_link : Option String := none
  application_process : Option String := none
  last_synced_at : Option Nat := none
  deriving DecidableEq, Repr

/-- An incoming normalized dict.  For each key, `none` means the key is
absent from the dict and `some v` means the key is present with value
`v` (which may itself be the null `none`) — this separates Python's
`item.get(k, d)` fallback from an explicit `None` value. -/
structure Record where
  source_scheme_id : Option (Option String) := none
  name : Option (Option String) := none
  state : Option (Option String) := none
  category : Option (Option String) := none
  short_description : Option (Option String) := none
  full_description : Option (Option String) := none
  min_age : Option (Option Int) := none
  max_age : Option (Option Int) := none
  min_income : Option (Option Int) := none
  max_income : Option (Option Int) := none
  occupation : Option (Option String) := none
  official_link : Option (Option String) := none
  application_process : Option (Option String) := none
  deriving DecidableEq, Repr

/-- Lines 23-25: `sid = item.get("source_scheme_id"); if not sid:
continue` — a missing key, a null value and the empty string are all
falsy and make the record be skipped. -/
def sidOf (item : Record) : Option String :=
  match item.source_scheme_id.getD none with
  | none => none
  | some s => if s = "" then none else some s

/-- The error raised by the insert path when the record has no "name"
key (line 55, `item["name"]`). -/
inductive MergeError where
  | keyErrorName
  deriving DecidableEq, Repr

/-- Lines 29-30: filter on `source` and `source_scheme_id`. -/
def rowKeyMatches (row : SchemeRow) (source sid : String) : Bool :=
  row.source == some source && row.source_scheme_id == some sid

/-- Lines 36-48: overwrite each mutable field with the incoming value
when its key is present, keep the stored value when absent
(`item.get(key, existing.field)`), and refresh `last_synced_at`. -/
def updateRow (row : SchemeRow) (item : Record) (now : Nat) : SchemeRow :=
  { row with
    name := item.name.getD row.name
    state := item.state.getD row.state
    category := item.category.getD row.category
    short_description := item.short_description.getD row.short_description
    full_description := item.full_description.getD row.full_description
    min_age := item.min_age.getD row.min_age
    max_age := item.max_age.getD row.max_age
    min_income := item.min_income.getD row.min_income
    max_income := item.max_income.getD row.max_income
    occupation := item.occupation.getD row.occupation
    official_link := item.official_link.getD row.official_link
    application_process := item.application_process.getD row.application_process
    last_synced_at := some now }

/-- Lines 51-69: the freshly constructed `models.Scheme` for the insert
path; `nm` is the value of the mandatory `item["name"]` lookup, the
other fields use `item.get(key)` (absent key stored as null). -/
def mkRow (item : Record) (source sid : String) (nm : Option String) (now : Nat) : SchemeRow :=
  { source := some source
    source_scheme_id := some sid
    name := nm
    state := item.state.getD none
    category := item.category.getD none
    short_description := item.short_description.getD none
    full_description := item.full_description.getD none
    min_age := item.min_age.getD none
    max_age := item.max_age.getD none
    min_income := item.min_income.getD none
    max_income := item.max_income.getD none
    occupation := item.occupation.getD none
    official_link := item.official_link.getD none
    application_process := item.application_process.getD none
    last_synced_at := some now }

/-- Lines 27-32 applied to the stored rows: update the first row whose
`(source, source_scheme_id)` matches, or report that none does. -/
def updateFirst (rows : List SchemeRow) (source sid : String) (item : Record) (now : Nat) :
    Option (List SchemeRow) :=
  match rows with
  | [] => none
  | r :: rest =>
    if rowKeyMatches r source sid then some (updateRow r item now :: rest)
    else (updateFirst rest source sid item now).map (fun l => r :: l)

/-- The `for item in items` loop of lines 22-70: `rows` are the stored
rows (in-place updates visible immediately), `pending` the rows added
by `db.add` and not yet flushed, `ins`/`upd` the two counters. -/
def mergeLoop (source : String) (now : Nat) :
    List Record → List SchemeRow → List SchemeRow → Nat → Nat →
      Except MergeError (List SchemeRow × List SchemeRow × Nat × Nat)
  | [], rows, pending, ins, upd => .ok (rows, pending, ins, upd)
  | item :: rest, rows, pending, ins, upd =>
    match sidOf item with
    | none => mergeLoop source now rest rows pending ins upd
    | some sid =>
      match updateFirst rows source sid item now with
      | some rows2 => mergeLoop source now rest rows2 pending ins (upd + 1)
      | none =>
        match item.name with
        | none => .error .keyErrorName
        | some nm =>
          mergeLoop source now rest rows (pending ++ [mkRow item source sid nm now]) (ins + 1) upd

/-- `upsert_schemes_from_source` of backend/ingestion/merge.py: run the
loop over the batch, commit (pending inserts become stored rows), and
return the `{"inserted": ..., "updated": ...}` counts.  A `KeyError`
escaping the loop aborts the call before `db.commit()`. -/
def upsert_schemes_from_source (db : List SchemeRow) (items : List Record) (source : String)
    (now : Nat) : Except MergeError (List SchemeRow × Nat × Nat) :=
  match mergeLoop source now items db [] 0 0 with
  | .error e => .error e
  | .ok (rows, pending, ins, upd) => .ok (rows ++ pending, ins, upd)

/-- Rows created by a run of the batch against an empty catalog, in
batch order: one per record with a truthy `source_scheme_id` (records
without a "name" key are also kept here; such a batch aborts instead,
which the theorems' hypotheses exclude). -/
def insertedRows (source : String) (now : Nat) (items : List Record) : List SchemeRow :=
  items.filterMap fun item =>
    match sidOf item with
    | none => none
    | some sid =>
      match item.name with
      | none => none
      | some nm => some (mkRow item source sid nm now)

/-- Number of records of the batch that carry a truthy
`source_scheme_id`. -/
def keptCount (items : List Record) : Nat :=
  (items.filter (fun item => (sidOf item).isSome)).length

/-! ### Concrete sample inputs (spec section 8 scenarios and variants) -/

/-- Spec scenario profile: Karnataka, age 20, student, income 300000. -/
def profileKarnataka : UserProfileCreate :=
  { name := "Asha", state := "Karnataka", age := 20, occupation := some "student",
    annual_income := some 300000 }

/-- Spec scenario scheme: Central, ages 18-35, student, max income 800000. -/
def schemeCentral : Scheme :=
  { name := "National Scholarship", short_description := "scholarship", state := "Central",
    min_age := some 18, max_age := some 35, occupation := some "student",
    max_income := some 800000 }

/-- Same scheme restricted to Maharashtra. -/
def schemeMaharashtra : Scheme :=
  { schemeCentral with state := "Maharashtra" }

/-- A profile with every optional field absent. -/
def profileBare : UserProfileCreate :=
  { name := "Ravi", state := "Karnataka", age := 30 }

/-- A scheme whose gender, caste and disability are all the wildcard
"Any" (mixed case). -/
def schemeAnyWildcards : Scheme :=
  { name := "Open Scheme", short_description := "open", state := "Central",
    gender := some "Any", caste := some "Any", disability := some "Any" }

/-- A scheme accepting the multi-caste set "SC/ST/OBC". -/
def schemeMultiCaste : Scheme :=
  { name := "Caste Scheme", short_description := "cs", state := "Central",
    caste := some "SC/ST/OBC" }

/-- Profile with caste "st". -/
def profileCasteSt : UserProfileCreate :=
  { profileBare with caste := some "st" }

/-- Profile with caste "general". -/
def profileCasteGeneral : UserProfileCreate :=
  { profileBare with caste := some "general" }

/-- A full incoming record with external id "ext-1" and name "Scheme X". -/
def recX : Record :=
  { source_scheme_id := some (some "ext-1"), name := some (some "Scheme X"),
    state := some (some "Karnataka"), category := some (some "student"),
    short_description := some (some "short"), min_age := some (some 18) }

/-- A second record with the same external id "ext-1" but name "Scheme Y". -/
def recY : Record :=
  { source_scheme_id := some (some "ext-1"), name := some (some "Scheme Y") }

/-- A record with a truthy external id and no "name" key. -/
def recNoName : Record :=
  { source_scheme_id := some (some "ext-2"), state := some (some "Karnataka") }

/-- A record whose "source_scheme_id" key is absent. -/
def recNoSid : Record :=
  { name := some (some "Orphan") }

/-- The catalog produced by merging `[recX, recY]` into an empty
catalog at time 0. -/
def dupDb1 : List SchemeRow :=
  [mkRow recX "myscheme" "ext-1" (some "Scheme X") 0,
   mkRow recY "myscheme" "ext-1" (some "Scheme Y") 0]

/-- The catalog produced by re-merging `[recX, recY]` into `dupDb1` at
time 1: both records match the first stored row, which ends up with
name "Scheme Y"; the second stored row is untouched. -/
def dupDb2 : List SchemeRow :=
  [updateRow (updateRow (mkRow recX "myscheme" "ext-1" (some "Scheme X") 0) recX 1) recY 1,
   mkRow recY "myscheme" "ext-1" (some "Scheme Y") 0]

/-! ### Step lemmas: each block appends its contribution -/

lemma stateStep_eq (p : UserProfileCreate) (s : Scheme) (e : Bool) (rs : List String) :
    stateStep p s (e, rs) = (e && !stateFails p s, rs ++ stateContrib p s) := by
  by_cases h : s.state.pyLower ≠ "central" ∧ s.state.pyLower ≠ p.state.pyLower <;>
    simp [stateStep, stateFails, stateContrib, contribOf, stateReason, h]

lemma minAgeStep_eq (p : UserProfileCreate) (s : Scheme) (e : Bool) (rs : List String) :
    minAgeStep p s (e, rs) = (e && !minAgeFails p s, rs ++ minAgeContrib p s) := by
  cases hm : s.min_age with
  | none => simp [minAgeStep, minAgeFails, minAgeContrib, contribOf, hm]
  | some m =>
    by_cases h : p.age < m <;>
      simp [minAgeStep, minAgeFails, minAgeContrib, contribOf, minAgeReason, hm, h]

lemma maxAgeStep_eq (p : UserProfileCreate) (s : Scheme) (e : Bool) (rs : List String) :
    maxAgeStep p s (e, rs) = (e && !maxAgeFails p s, rs ++ maxAgeContrib p s) := by
  cases hm : s.max_age with
  | none => simp [maxAgeStep, maxAgeFails, maxAgeContrib, contribOf, hm]
  | some m =>
    by_cases h : p.age > m <;>
      simp [maxAgeStep, maxAgeFails, maxAgeContrib, contribOf, maxAgeReason, hm, h]

lemma minIncomeStep_eq (p : UserProfileCreate) (s : Scheme) (e : Bool) (rs : List String) :
    minIncomeStep p s (e, rs) = (e && !minIncomeFails p s, rs ++ minIncomeContrib p s) := by
  cases hm : s.min_income with
  | none => simp [minIncomeStep, minIncomeFails, minIncomeContrib, contribOf, hm]
  | some m =>
    cases hi : p.annual_income with
    | none =>
      simp [minIncomeStep, minIncomeFails, minIncomeContrib, contribOf, minIncomeReason, hm, hi]
    | some inc =>
      by_cases h : inc < m <;>
        simp [minIncomeStep, minIncomeFails, minIncomeContrib, contribOf, minIncomeReason,
          hm, hi, h]

lemma maxIncomeStep_eq (p : UserProfileCreate) (s : Scheme) (e : Bool) (rs : List String) :
    maxIncomeStep p s (e, rs) = (e && !maxIncomeFails p s, rs ++ maxIncomeContrib p s) := by
  cases hm : s.max_income with
  | none => simp [maxIncomeStep, maxIncomeFails, maxIncomeContrib, contribOf, hm]
  | some m =>
    cases hi : p.annual_income with
    | none =>
      simp [maxIncomeStep, maxIncomeFails, maxIncomeContrib, contribOf, maxIncomeReason, hm, hi]
    | some inc =>
      by_cases h : inc > m <;>
        simp [maxIncomeStep, maxIncomeFails, maxIncomeContrib, contribOf, maxIncomeReason,
          hm, hi, h]

lemma occupationStep_eq (p : UserProfileCreate) (s : Scheme) (e : Bool) (rs : List String) :
    occupationStep p s (e, rs) = (e && !occupationFails p s, rs ++ occupationContrib p s) := by
  cases ho : s.occupation with
  | none => simp [occupationStep, occupationFails, occupationContrib, contribOf, ho]
  | some occ =>
    cases hp : p.occupation with
    | none =>
      simp [occupationStep, occupationFails, occupationContrib, contribOf, occupationReason,
        ho, hp]
    | some pocc =>
      by_cases h : occ.pyLower ≠ pocc.pyLower <;>
        simp [occupationStep, occupationFails, occupationContrib, contribOf, occupationReason,
          ho, hp, h]

lemma genderStep_eq (p : UserProfileCreate) (s : Scheme) (e : Bool) (rs : List String) :
    genderStep p s (e, rs) = (e && !genderFails p s, rs ++ genderContrib p s) := by
  cases hg : s.gender with
  | none => simp [genderStep, genderFails, genderContrib, contribOf, hg]
  | some g =>
    by_cases hany : g.pyLower = "any"
    · simp [genderStep, genderFails, genderContrib, contribOf, hg, hany]
    · cases hp : p.gender with
      | none =>
        simp [genderStep, genderFails, genderContrib, contribOf, genderReason, hg, hany, hp]
      | some pg =>
        by_cases h : g.pyLower ≠ pg.pyLower <;>
          simp [genderStep, genderFails, genderContrib, contribOf, genderReason,
            hg, hany, hp, h]

lemma casteStep_eq (p : UserProfileCreate) (s : Scheme) (e : Bool) (rs : List String) :
    casteStep p s (e, rs) = (e && !casteFails p s, rs ++ casteContrib p s) := by
  cases hc : s.caste with
  | none => simp [casteStep, casteFails, casteContrib, contribOf, hc]
  | some c =>
    by_cases hany : c.pyLower = "any"
    · simp [casteStep, casteFails, casteContrib, contribOf, hc, hany]
    · cases hp : p.caste with
      | none =>
        simp [casteStep, casteFails, casteContrib, contribOf, casteReason, hc, hany, hp]
      | some pc =>
        by_cases h : ((c.pySplit '/').map (fun t => t.pyStrip.pyLower)).contains pc.pyLower <;>
          simp_all [casteStep, casteFails, casteContrib, contribOf, casteReason]

lemma disabilityStep_eq (p : UserProfileCreate) (s : Scheme) (e : Bool) (rs : List String) :
    disabilityStep p s (e, rs) = (e && !disabilityFails p s, rs ++ disabilityContrib p s) := by
  cases hd : s.disability with
  | none => simp [disabilityStep, disabilityFails, disabilityContrib, contribOf, hd]
  | some d =>
    by_cases hany : d.pyLower = "any"
    · simp [disabilityStep, disabilityFails, disabilityContrib, contribOf, hd, hany]
    · cases hp : p.disability with
      | none =>
        simp [disabilityStep, disabilityFails, disabilityContrib, contribOf, disabilityReason,
          hd, hany, hp]
      | some pd =>
        by_cases h : d.pyLower ≠ pd.pyLower
        · by_cases hyes : d.pyLower = "yes" <;>
            simp_all [disabilityStep, disabilityFails, disabilityContrib, contribOf,
              disabilityReason]
        · simp_all [disabilityStep, disabilityFails, disabilityContrib, contribOf,
            disabilityReason]

/-- The evaluator's reason list is the concatenation, in source order, of
the nine per-predicate contributions; its eligibility flag is the
conjunction of the nine per-predicate passes. -/
lemma check_eligibility_decomp (p : UserProfileCreate) (s : Scheme) :
    (check_eligibility p s).reasons =
      stateContrib p s ++ minAgeContrib p s ++ maxAgeContrib p s ++ minIncomeContrib p s ++
      maxIncomeContrib p s ++ occupationContrib p s ++ genderContrib p s ++ casteContrib p s ++
      disabilityContrib p s
    ∧ (check_eligibility p s).eligible =
      (!stateFails p s && !minAgeFails p s && !maxAgeFails p s && !minIncomeFails p s &&
       !maxIncomeFails p s && !occupationFails p s && !genderFails p s && !casteFails p s &&
       !disabilityFails p s) := by
  constructor <;>
    simp [check_eligibility, stateStep_eq, minAgeStep_eq, maxAgeStep_eq, minIncomeStep_eq,
      maxIncomeStep_eq, occupationStep_eq, genderStep_eq, casteStep_eq, disabilityStep_eq]

lemma contribOf_eq_nil (f : Bool) (r : String) : contribOf f r = [] ↔ f = false := by
  cases f <;> simp [contribOf]

/-- C1: for every valid Profile and Scheme, the Verdict returned by
`check_eligibility` has an empty reasons list if and only if its
eligible flag is true. -/
theorem reasons_empty_iff_eligible (p : UserProfileCreate) (s : Scheme) :
    (check_eligibility p s).reasons = [] ↔ (check_eligibility p s).eligible = true := by
  obtain ⟨hr, he⟩ := check_eligibility_decomp p s
  rw [hr, he]
  simp [stateContrib, minAgeContrib, maxAgeContrib, minIncomeContrib, maxIncomeContrib,
    occupationContrib, genderContrib, casteContrib, disabilityContrib, contribOf_eq_nil,
    List.append_eq_nil, Bool.and_eq_true, Bool.not_eq_true']
  tauto

/-- C3: `check_eligibility` evaluates all nine predicates with no
short-circuiting — the reason list is the concatenation of the nine
independent per-predicate contributions, in the fixed order
jurisdiction, min-age, max-age, min-income, max-income, occupation,
gender, caste, disability, each contribution holding exactly one reason
when its predicate fails and none otherwise — and the verdict is
eligible iff zero predicates fail. -/
theorem eligibility_evaluates_all_predicates (p : UserProfileCreate) (s : Scheme) :
    (check_eligibility p s).reasons =
      stateContrib p s ++ minAgeContrib p s ++ maxAgeContrib p s ++ minIncomeContrib p s ++
      maxIncomeContrib p s ++ occupationContrib p s ++ genderContrib p s ++ casteContrib p s ++
      disabilityContrib p s
    ∧ (check_eligibility p s).reasons.length =
      ((if stateFails p s then 1 else 0) + (if minAgeFails p s then 1 else 0) +
       (if maxAgeFails p s then 1 else 0) + (if minIncomeFails p s then 1 else 0) +
       (if maxIncomeFails p s then 1 else 0) + (if occupationFails p s then 1 else 0) +
       (if genderFails p s then 1 else 0) + (if casteFails p s then 1 else 0) +
       (if disabilityFails p s then 1 else 0))
    ∧ ((check_eligibility p s).eligible = true ↔
        (stateFails p s = false ∧ minAgeFails p s = false ∧ maxAgeFails p s = false ∧
         minIncomeFails p s = false ∧ maxIncomeFails p s = false ∧
         occupationFails p s = false ∧ genderFails p s = false ∧ casteFails p s = false ∧
         disabilityFails p s = false)) := by
  obtain ⟨hr, he⟩ := check_eligibility_decomp p s
  refine ⟨hr, ?_, ?_⟩
  · rw [hr]
    simp [stateContrib, minAgeContrib, maxAgeContrib, minIncomeContrib, maxIncomeContrib,
      occupationContrib, genderContrib, casteContrib, disabilityContrib, contribOf,
      apply_ite List.length]
    omega
  · rw [he]
    simp [Bool.and_eq_true, Bool.not_eq_true']
    tauto

/-- C4: the jurisdiction predicate passes exactly when the scheme's
jurisdiction is "central" case-insensitively or equals the profile's
jurisdiction case-insensitively; when it fails the verdict's first
reason names the scheme's jurisdiction; a "Central" scheme (hence any
casing of "central") passes for a profile from any state. -/
theorem jurisdiction_predicate_semantics (p : UserProfileCreate) (s : Scheme) :
    (stateFails p s = false ↔
      (s.state.pyLower = "central" ∨ s.state.pyLower = p.state.pyLower))
    ∧ (stateFails p s = true →
        (check_eligibility p s).reasons.head? =
          some ("This scheme is only for " ++ s.state ++ " residents."))
    ∧ (s.state.pyLower = "central" → stateFails p s = false) := by
  refine ⟨?_, ?_, ?_⟩
  · simp only [stateFails, decide_eq_false_iff_not, not_and_or, not_not]
  · intro h
    obtain ⟨hr, _⟩ := check_eligibility_decomp p s
    rw [hr]
    simp [stateContrib, contribOf, stateReason, h]
  · intro h
    simp [stateFails, h]

/-- C4 witness: the spec's Karnataka profile passes jurisdiction for
the Central scheme, and against the Maharashtra variant the first
reason names Maharashtra. -/
theorem jurisdiction_predicate_semantics_witness :
    stateFails profileKarnataka schemeCentral = false ∧
    (check_eligibility profileKarnataka schemeMaharashtra).reasons.head? =
      some "This scheme is only for Maharashtra residents." := by
  constructor
  · exact (jurisdiction_predicate_semantics profileKarnataka schemeCentral).2.2 (by decide)
  · have h :=
      (jurisdiction_predicate_semantics profileKarnataka schemeMaharashtra).2.1 (by decide)
    simpa [schemeMaharashtra, schemeCentral] using h

/-- C5: a scheme whose gender, caste or disability field is "any" in
any letter case makes the corresponding predicate pass for every
profile, including profiles on which the field is absent. -/
theorem any_wildcard_passes (p : UserProfileCreate) (s : Scheme) (g : String) :
    (s.gender = some g → g.pyLower = "any" → genderFails p s = false)
    ∧ (s.caste = some g → g.pyLower = "any" → casteFails p s = false)
    ∧ (s.disability = some g → g.pyLower = "any" → disabilityFails p s = false) := by
  refine ⟨?_, ?_, ?_⟩ <;> intro h ha
  · simp [genderFails, h, ha]
  · simp [casteFails, h, ha]
  · simp [disabilityFails, h, ha]

/-- C5 witness: with gender, caste and disability all set to "Any" on
the scheme, all three predicates pass for a profile that gives none of
the three fields. -/
theorem any_wildcard_passes_witness :
    genderFails profileBare schemeAnyWildcards = false ∧
    casteFails profileBare schemeAnyWildcards = false ∧
    disabilityFails profileBare schemeAnyWildcards = false :=
  ⟨(any_wildcard_passes profileBare schemeAnyWildcards "Any").1 rfl (by decide),
   (any_wildcard_passes profileBare schemeAnyWildcards "Any").2.1 rfl (by decide),
   (any_wildcard_passes profileBare schemeAnyWildcards "Any").2.2 rfl (by decide)⟩

/-- C6: when the scheme's caste field is set and not "any", the caste
predicate passes exactly when the profile carries a caste whose
lowercased value is in the set obtained by splitting the scheme's caste
on "/" and trimming and lowercasing each token. -/
theorem caste_predicate_semantics (p : UserProfileCreate) (s : Scheme) (cs : String)
    (hc : s.caste = some cs) (hany : cs.pyLower ≠ "any") :
    casteFails p s = false ↔
      ∃ pc, p.caste = some pc ∧
        ((cs.pySplit '/').map (fun t => t.pyStrip.pyLower)).contains pc.pyLower = true := by
  cases hp : p.caste with
  | none => simp [casteFails, hc, hany, hp]
  | some pc => simp [casteFails, hc, hany, hp]

/-- C6 witness: scheme caste "SC/ST/OBC" accepts profile caste "st" and
rejects profile caste "general". -/
theorem caste_predicate_semantics_witness :
    casteFails profileCasteSt schemeMultiCaste = false ∧
    casteFails profileCasteGeneral schemeMultiCaste = true := by
  constructor
  · exact (caste_predicate_semantics profileCasteSt schemeMultiCaste "SC/ST/OBC" rfl
      (by decide)).mpr ⟨"st", rfl, by decide⟩
  · decide

lemma mergeLoop_skip (source : String) (now : Nat) (item : Record) (post : List Record)
    (hskip : sidOf item = none) :
    ∀ (pre : List Record) (rows pending : List SchemeRow) (ins upd : Nat),
      mergeLoop source now (pre ++ item :: post) rows pending ins upd =
        mergeLoop source now (pre ++ post) rows pending ins upd := by
  intro pre
  induction pre with
  | nil =>
    intro rows pending ins upd
    simp [mergeLoop, hskip]
  | cons q qs ih =>
    intro rows pending ins upd
    simp only [List.cons_append, mergeLoop]
    cases hq : sidOf q with
    | none =>
      simp only [hq]
      exact ih rows pending ins upd
    | some sid =>
      simp only [hq]
      cases hu : updateFirst rows source sid q now with
      | some rows2 =>
        simp only [hu]
        exact ih rows2 pending ins (upd + 1)
      | none =>
        simp only [hu]
        cases hn : q.name with
        | none => simp only [hn]
        | some nm =>
          simp only [hn]
          exact ih rows (pending ++ [mkRow q source sid nm now]) (ins + 1) upd

/-- C8: a record whose `source_scheme_id` is missing (no key or a null
value) or empty is silently skipped: the run over a batch containing it
returns exactly what the run over the batch without it returns — same
stored rows, same counts, an error only if the rest errors. -/
theorem record_without_key_skipped (db : List SchemeRow) (pre post : List Record)
    (item : Record) (source : String) (now : Nat)
    (h : item.source_scheme_id = none ∨ item.source_scheme_id = some none ∨
      item.source_scheme_id = some (some "")) :
    upsert_schemes_from_source db (pre ++ item :: post) source now =
      upsert_schemes_from_source db (pre ++ post) source now := by
  have hskip : sidOf item = none := by
    rcases h with h | h | h <;> simp [sidOf, h]
  unfold upsert_schemes_from_source
  rw [mergeLoop_skip source now item post hskip pre db [] 0 0]

/-- C8 witness: prepending a record without a `source_scheme_id` key to
a batch leaves the merge result unchanged. -/
theorem record_without_key_skipped_witness :
    upsert_schemes_from_source [] [recNoSid, recX] "myscheme" 0 =
      upsert_schemes_from_source [] [recX] "myscheme" 0 :=
  record_without_key_skipped [] [] [recX] recNoSid "myscheme" 0 (Or.inl rfl)

/-- C9: the insert path demands a "name" key: a batch containing a
record with a truthy `source_scheme_id`, no matching stored scheme and
no "name" key makes the merge abort with the `KeyError` instead of
inserting, so the merge is not total over such batches. -/
theorem insert_requires_name_key :
    upsert_schemes_from_source [] [recNoName] "myscheme" 0 =
      Except.error MergeError.keyErrorName := rfl

/-- C7: on the update path every mutable field whose key is absent from
the incoming record keeps its stored value, and re-merging such a
record routes the stored row through exactly this update. -/
theorem partial_update_preserves_absent_fields (row : SchemeRow) (item : Record) (now : Nat) :
    (item.name = none → (updateRow row item now).name = row.name)
    ∧ (item.state = none → (updateRow row item now).state = row.state)
    ∧ (item.category = none → (updateRow row item now).category = row.category)
    ∧ (item.short_description = none →
        (updateRow row item now).short_description = row.short_description)
    ∧ (item.full_description = none →
        (updateRow row item now).full_description = row.full_description)
    ∧ (item.min_age = none → (updateRow row item now).min_age = row.min_age)
    ∧ (item.max_age = none → (updateRow row item now).max_age = row.max_age)
    ∧ (item.min_income = none → (updateRow row item now).min_income = row.min_income)
    ∧ (item.max_income = none → (updateRow row item now).max_income = row.max_income)
    ∧ (item.occupation = none → (updateRow row item now).occupation = row.occupation)
    ∧ (item.official_link = none → (updateRow row item now).official_link = row.official_link)
    ∧ (item.application_process = none →
        (updateRow row item now).application_process = row.application_process)
    ∧ (∀ source sid : String, row.source = some source → row.source_scheme_id = some sid →
        item.source_scheme_id = some (some sid) → sid ≠ "" →
        upsert_schemes_from_source [row] [item] source now =
          Except.ok ([updateRow row item now], 0, 1)) := by
  refine ⟨?_, ?_, ?_, ?_, ?_, ?_, ?_, ?_, ?_, ?_, ?_, ?_, ?_⟩
  all_goals
    first
    | (intro h; simp [updateRow, h])
    | (intro source sid hs hsid hitem hne
       have hsidOf : sidOf item = some sid := by simp [sidOf, hitem, hne]
       have hkey : rowKeyMatches row source sid = true := by simp [rowKeyMatches, hs, hsid]
       simp [upsert_schemes_from_source, mergeLoop, hsidOf, updateFirst, hkey])

/-- C7 witness: re-merging a record that carries only its external id
and name leaves the stored category (and the whole row apart from the
overwritten name and refreshed timestamp) unchanged, through the update
path. -/
theorem partial_update_preserves_absent_fields_witness :
    (updateRow (mkRow recX "myscheme" "ext-1" (some "Scheme X") 0) recY 1).category =
      (mkRow recX "myscheme" "ext-1" (some "Scheme X") 0).category
    ∧ upsert_schemes_from_source [mkRow recX "myscheme" "ext-1" (some "Scheme X") 0] [recY]
        "myscheme" 1 =
      Except.ok ([updateRow (mkRow recX "myscheme" "ext-1" (some "Scheme X") 0) recY 1], 0, 1) :=
  ⟨(partial_update_preserves_absent_fields
      (mkRow recX "myscheme" "ext-1" (some "Scheme X") 0) recY 1).2.2.1 rfl,
   (partial_update_preserves_absent_fields
      (mkRow recX "myscheme" "ext-1" (some "Scheme X") 0) recY 1).2.2.2.2.2.2.2.2.2.2.2.2
     "myscheme" "ext-1" rfl rfl rfl (by decide)⟩

/-- C10: on the update path a mutable field whose key is present with a
null value overwrites the stored value with null, while omitting the
key preserves the stored value (contrast shown on `category`). -/
theorem explicit_null_overwrites (row : SchemeRow) (item : Record) (now : Nat) :
    (item.name = some none → (updateRow row item now).name = none)
    ∧ (item.state = some none → (updateRow row item now).state = none)
    ∧ (item.category = some none → (updateRow row item now).category = none)
    ∧ (item.short_description = some none → (updateRow row item now).short_description = none)
    ∧ (item.full_description = some none → (updateRow row item now).full_description = none)
    ∧ (item.min_age = some none → (updateRow row item now).min_age = none)
    ∧ (item.max_age = some none → (updateRow row item now).max_age = none)
    ∧ (item.min_income = some none → (updateRow row item now).min_income = none)
    ∧ (item.max_income = some none → (updateRow row item now).max_income = none)
    ∧ (item.occupation = some none → (updateRow row item now).occupation = none)
    ∧ (item.official_link = some none → (updateRow row item now).official_link = none)
    ∧ (item.application_process = some none →
        (updateRow row item now).application_process = none)
    ∧ (item.category = none → (updateRow row item now).category = row.category) := by
  refine ⟨?_, ?_, ?_, ?_, ?_, ?_, ?_, ?_, ?_, ?_, ?_, ?_, ?_⟩ <;>
    (intro h; simp [updateRow, h])

lemma getD_join {α : Type} (o : Option (Option α)) : o.getD (o.getD none) = o.getD none := by
  cases o <;> rfl

lemma updateRow_mkRow (item : Record) (source sid : String) (nm : Option String)
    (t1 now : Nat) (hn : item.name = some nm) :
    updateRow (mkRow item source sid nm t1) item now = mkRow item source sid nm now := by
  simp [updateRow, mkRow, hn, getD_join]

lemma setTs_mkRow (item : Record) (source sid : String) (nm : Option String) (t1 now : Nat) :
    { mkRow item source sid nm t1 with last_synced_at := some now } =
      mkRow item source sid nm now := by
  simp [mkRow]

lemma mergeLoop_no_match (source : String) (t1 : Nat) :
    ∀ (items : List Record) (pending : List SchemeRow) (ins upd : Nat),
      (∀ item ∈ items, sidOf item ≠ none → item.name ≠ none) →
      mergeLoop source t1 items [] pending ins upd =
        .ok ([], pending ++ insertedRows source t1 items, ins + keptCount items, upd) := by
  intro items
  induction items with
  | nil =>
    intro pending ins upd _
    simp [mergeLoop, insertedRows, keptCount]
  | cons item rest ih =>
    intro pending ins upd hname
    simp only [mergeLoop]
    cases hq : sidOf item with
    | none =>
      simp only [hq]
      rw [ih pending ins upd (fun i hi hs => hname i (List.mem_cons_of_mem _ hi) hs)]
      simp [insertedRows, keptCount, hq, List.filter_cons]
    | some sid =>
      cases hnm : item.name with
      | none => exact absurd hnm (hname item (by simp) (by simp [hq]))
      | some nm =>
        simp only [hq, updateFirst, hnm]
        rw [ih (pending ++ [mkRow item source sid nm t1]) (ins + 1) upd
          (fun i hi hs => hname i (List.mem_cons_of_mem _ hi) hs)]
        simp [insertedRows, keptCount, hq, hnm, List.filter_cons]
        all_goals omega

lemma updateFirst_append (source sid : String) (item : Record) (now : Nat) :
    ∀ (done : List SchemeRow) (r : SchemeRow) (rest : List SchemeRow),
      (∀ d ∈ done, rowKeyMatches d source sid = false) →
      rowKeyMatches r source sid = true →
      updateFirst (done ++ r :: rest) source sid item now =
        some (done ++ updateRow r item now :: rest) := by
  intro done
  induction done with
  | nil =>
    intro r rest _ hr
    simp [updateFirst, hr]
  | cons d ds ih =>
    intro r rest hd hr
    have hdf : rowKeyMatches d source sid = false := hd d (by simp)
    have hih := ih r rest (fun x hx => hd x (by simp [hx])) hr
    simp only [List.cons_append, updateFirst, hdf, Bool.false_eq_true, if_false]
    rw [show List.append ds (r :: rest) = ds ++ r :: rest from rfl, hih]
    simp

lemma mergeLoop_update_all (source : String) (t1 t2 : Nat) :
    ∀ (items : List Record) (done pending : List SchemeRow) (ins upd : Nat),
      (∀ item ∈ items, sidOf item ≠ none → item.name ≠ none) →
      (items.filterMap sidOf).Nodup →
      (∀ d ∈ done, ∀ sid ∈ items.filterMap sidOf, rowKeyMatches d source sid = false) →
      mergeLoop source t2 items (done ++ insertedRows source t1 items) pending ins upd =
        .ok (done ++ (insertedRows source t1 items).map
              (fun r => { r with last_synced_at := some t2 }),
            pending, ins, upd + keptCount items) := by
  intro items
  induction items with
  | nil =>
    intro done pending ins upd _ _ _
    simp [mergeLoop, insertedRows, keptCount]
  | cons item rest ih =>
    intro done pending ins upd hname hnodup hdisj
    cases hq : sidOf item with
    | none =>
      have hrowsEq : insertedRows source t1 (item :: rest) = insertedRows source t1 rest := by
        simp [insertedRows, hq]
      have hfm : (item :: rest).filterMap sidOf = rest.filterMap sidOf := by
        simp [List.filterMap_cons, hq]
      rw [hrowsEq]
      simp only [mergeLoop, hq]
      rw [ih done pending ins upd (fun i hi hs => hname i (List.mem_cons_of_mem _ hi) hs)
        (by rw [hfm] at hnodup; exact hnodup)
        (fun d hd sid hs => hdisj d hd sid (by rw [hfm]; exact hs))]
      simp [keptCount, List.filter_cons, hq]
    | some sid =>
      cases hnm : item.name with
      | none => exact absurd hnm (hname item (by simp) (by simp [hq]))
      | some nm =>
        have hfm : (item :: rest).filterMap sidOf = sid :: rest.filterMap sidOf := by
          simp [List.filterMap_cons, hq]
        have hrowsEq : insertedRows source t1 (item :: rest) =
            mkRow item source sid nm t1 :: insertedRows source t1 rest := by
          simp [insertedRows, hq, hnm]
        have hkey : rowKeyMatches (mkRow item source sid nm t1) source sid = true := by
          simp [rowKeyMatches, mkRow]
        have hdone : ∀ d ∈ done, rowKeyMatches d source sid = false := by
          intro d hd
          exact hdisj d hd sid (by rw [hfm]; exact List.mem_cons_self sid _)
        have hnotin : sid ∉ rest.filterMap sidOf := by
          rw [hfm] at hnodup
          exact (List.nodup_cons.mp hnodup).1
        have hnodup2 : (rest.filterMap sidOf).Nodup := by
          rw [hfm] at hnodup
          exact (List.nodup_cons.mp hnodup).2
        have hdisj2 : ∀ d ∈ done ++ [mkRow item source sid nm t2],
            ∀ sid2 ∈ rest.filterMap sidOf, rowKeyMatches d source sid2 = false := by
          intro d hd sid2 hs2
          rcases List.mem_append.mp hd with hdl | hdr
          · exact hdisj d hdl sid2 (by rw [hfm]; exact List.mem_cons_of_mem _ hs2)
          · have hdm : d = mkRow item source sid nm t2 := by simpa using hdr
            subst hdm
            have hne : sid ≠ sid2 := fun he => hnotin (he ▸ hs2)
            simp [rowKeyMatches, mkRow, hne]
        simp only [hrowsEq, mergeLoop, hq,
          updateFirst_append source sid item t2 done (mkRow item source sid nm t1)
            (insertedRows source t1 rest) hdone hkey,
          updateRow_mkRow item source sid nm t1 t2 hnm]
        have hre : done ++ mkRow item source sid nm t2 :: insertedRows source t1 rest =
            (done ++ [mkRow item source sid nm t2]) ++ insertedRows source t1 rest := by
          simp
        rw [hre]
        rw [ih (done ++ [mkRow item source sid nm t2]) pending ins (upd + 1)
          (fun i hi hs => hname i (List.mem_cons_of_mem _ hi) hs) hnodup2 hdisj2]
        simp [mkRow, keptCount, List.filter_cons, hq]
        all_goals omega

/-- C2 counterexample: merging the batch `[recX, recY]` (two records
with the same external id "ext-1") twice against an empty catalog does
return `{inserted: 2, updated: 0}` then `{inserted: 0, updated: 2}`,
but the stored records are NOT field-for-field identical after both
runs: the second run redirects both updates onto the first stored row,
overwriting its name from "Scheme X" to "Scheme Y" (and refreshing its
timestamp), so the claim as stated is false. -/
theorem merge_rerun_changes_stored_fields :
    upsert_schemes_from_source [] [recX, recY] "myscheme" 0 = Except.ok (dupDb1, 2, 0)
    ∧ upsert_schemes_from_source dupDb1 [recX, recY] "myscheme" 1 = Except.ok (dupDb2, 0, 2)
    ∧ dupDb1 ≠ dupDb2
    ∧ dupDb1.map SchemeRow.name ≠ dupDb2.map SchemeRow.name :=
  ⟨rfl, rfl, by decide, by decide⟩

/-- C2 (amended): for a batch whose records with a truthy
`source_scheme_id` carry pairwise-distinct ids and all have a "name"
key, merging twice against an empty catalog returns
`{inserted: N, updated: 0}` then `{inserted: 0, updated: N}` (`N` the
number of records with a truthy `source_scheme_id`), and the catalog
after the second run consists of exactly the rows of the first run with
only `last_synced_at` changed (to the second run's clock); all other
fields are identical. -/
theorem merge_idempotent_on_distinct_ids (items : List Record) (source : String)
    (t1 t2 : Nat)
    (hname : ∀ item ∈ items, sidOf item ≠ none → item.name ≠ none)
    (hnodup : (items.filterMap sidOf).Nodup) :
    upsert_schemes_from_source [] items source t1 =
      Except.ok (insertedRows source t1 items, keptCount items, 0)
    ∧ upsert_schemes_from_source (insertedRows source t1 items) items source t2 =
      Except.ok ((insertedRows source t1 items).map
          (fun r => { r with last_synced_at := some t2 }), 0, keptCount items) := by
  constructor
  · unfold upsert_schemes_from_source
    rw [mergeLoop_no_match source t1 items [] 0 0 hname]
    simp
  · have h := mergeLoop_update_all source t1 t2 items [] [] 0 0 hname hnodup (by simp)
    simp only [List.nil_append, Nat.zero_add] at h
    unfold upsert_schemes_from_source
    rw [h]
    simp

/-- C2 witness: the single-record batch `[recX]` satisfies both
hypotheses; run twice it inserts once then updates once, and the final
row differs from the first run's row only in `last_synced_at`. -/
theorem merge_idempotent_on_distinct_ids_witness :
    upsert_schemes_from_source [] [recX] "myscheme" 0 =
      Except.ok (insertedRows "myscheme" 0 [recX], 1, 0)
    ∧ upsert_schemes_from_source (insertedRows "myscheme" 0 [recX]) [recX] "myscheme" 1 =
      Except.ok ((insertedRows "myscheme" 0 [recX]).map
          (fun r => { r with last_synced_at := some (1 : Nat) }), 0, 1) := by
  have h := merge_idempotent_on_distinct_ids [recX] "myscheme" 0 1 (by decide) (by decide)
  simpa [show keptCount [recX] = 1 from by decide] using h

/-- C10 witness: an incoming record whose "category" key is present
with a null value nulls the stored category on update. -/
theorem explicit_null_overwrites_witness :
    (updateRow (mkRow recX "myscheme" "ext-1" (some "Scheme X") 0)
      { source_scheme_id := some (some "ext-1"), category := some none } 2).category = none :=
  (explicit_null_overwrites (mkRow recX "myscheme" "ext-1" (some "Scheme X") 0)
    { source_scheme_id := some (some "ext-1"), category := some none } 2).2.2.1 rfl
